import Mathlib

/-!
Verification development for the Micro Credit Risk Analyzer.

The TypeScript sources are shallowly embedded here.  JavaScript numbers are
modelled as rationals (ℚ): all arithmetic appearing in the sources is exact
decimal arithmetic, `Math.round x` is `⌊x + 1/2⌋`, `Math.min`/`Math.max` are
`min`/`max`, and `Math.pow` with a natural exponent is `^`.  Rational division
is total with `x / 0 = 0`; no theorem below depends on the value of a division
at a zero denominator.  JavaScript string formatting of numbers is modelled by
`toString` on ℚ, which agrees with JavaScript on integer-valued numbers.
-/

/-- Model of `Math.round` of JavaScript: round half towards positive infinity. -/
def jsRound (q : ℚ) : ℚ := (⌊q + 1/2⌋ : ℤ)

/-- Model of the JavaScript idiom `x || d` for an already-computed number `x`,
where `none` stands for `NaN`: `NaN` and `0` are falsy and give the default. -/
def jsOrQ (o : Option ℚ) (d : ℚ) : ℚ :=
  match o with
  | none => d
  | some v => if v = 0 then d else v

/-- The idiom `x || d` for an integer-valued number (result of `parseInt`). -/
def jsOrZ (o : Option ℤ) (d : ℤ) : ℤ :=
  match o with
  | none => d
  | some v => if v = 0 then d else v

/-- The idiom `s || d` for a possibly-undefined string: `undefined` and the
empty string are falsy. -/
def jsOrS (o : Option String) (d : String) : String :=
  match o with
  | none => d
  | some v => if v = "" then d else v

/-! ## Data model (src/types/index.ts) -/

/-- The `income_type` union of `UserData`. -/
inductive IncomeType where
  | salary
  | business
  | freelance
  | daily_wage
deriving DecidableEq, Repr

/-- The `expense_categories` object of `UserData`. -/
structure ExpenseCategories where
  essentials : ℚ
  discretionary : ℚ
  investments : ℚ

/-- Model of `UserData` from src/types/index.ts (the fields consumed by the engine). -/
structure UserData where
  user_id : String
  monthly_income : ℚ
  income_type : IncomeType
  income_stability_months : ℚ
  emergency_savings : ℚ
  electricity_bill_on_time : ℚ
  dth_recharge_on_time : ℚ
  internet_bill_on_time : ℚ
  rent_payment_on_time : ℚ
  overall_bill_payment_score : ℚ
  existing_loan_emi : ℚ
  credit_card_outstanding : ℚ
  previous_loan_defaults : ℚ
  loan_repayment_history_score : ℚ
  upi_transactions_per_month : ℚ
  digital_wallet_usage : ℚ
  online_bill_payments : ℚ
  digital_financial_activity_score : ℚ
  monthly_expenses : ℚ
  savings_rate : ℚ
  expense_categories : ExpenseCategories
  age : ℚ
  employment_type : String
  years_of_employment : ℚ
  city_tier : ℚ

/-- Risk bands of `RiskScore.risk_band`. -/
inductive RiskBand where
  | excellent
  | good
  | fair
  | poor
  | very_poor
deriving DecidableEq, Repr

/-- Decisions of `RiskScore.decision`. -/
inductive Decision where
  | approve
  | review
  | reject
deriving DecidableEq, Repr

/-- One `{ score, weight }` entry of `score_components`. -/
structure ScoreComponent where
  score : ℚ
  weight : ℚ

/-- The `score_components` object of `RiskScore`. -/
structure ScoreComponents where
  payment_history : ScoreComponent
  credit_utilization : ScoreComponent
  income_stability : ScoreComponent
  digital_behavior : ScoreComponent

/-- One entry of `financial_coaching`. -/
structure Coaching where
  priority : String
  action : String
  impact : String

/-- One element of `LoanEligibility.emi_options`. -/
structure EMIOption where
  tenure : ℕ
  emi : ℚ
  total_interest : ℚ
  total_amount : ℚ

/-- The `interest_rate_range` object of `LoanEligibility`. -/
structure InterestRateRange where
  min : ℚ
  max : ℚ

/-- Model of `LoanEligibility` as returned by `calculateLoanEligibility`. -/
structure LoanEligibility where
  eligible : Bool
  max_amount : ℚ
  recommended_amount : ℚ
  tenure_options : List ℕ
  interest_rate_range : InterestRateRange
  emi_options : List EMIOption

/-- Model of `FinancialProfile` built by `buildFinancialProfile`. -/
structure FinancialProfile where
  debt_to_income_ratio : ℚ
  savings_to_income_ratio : ℚ
  expense_to_income_ratio : ℚ
  payment_consistency_score : ℚ
  bill_payment_reliability : ℚ
  loan_repayment_track_record : ℚ
  digital_payment_adoption : ℚ
  financial_app_usage : ℚ
  online_banking_activity : ℚ
  income_volatility : ℚ
  emergency_fund_adequacy : ℚ
  credit_utilization_pattern : ℚ

/-- Model of `RiskScore` from src/types/index.ts. -/
structure RiskScore where
  user_id : String
  credit_score : ℚ
  risk_band : RiskBand
  default_probability : ℚ
  decision : Decision
  score_components : ScoreComponents
  max_eligible_amount : ℚ
  recommended_emi : ℚ
  optimal_tenure_months : ℕ
  improvement_suggestions : List String
  financial_coaching : List Coaching
  percentile_rank : ℚ
  peer_comparison : String
  rbi_compliant : Bool
  rbi_violations : List String
  emi_to_income_ratio : ℚ

namespace RealisticCreditEngine

/-- Model of `calculatePaymentHistoryScore` (realisticCreditEngine, 40% weight). -/
def calculatePaymentHistoryScore (u : UserData) : ℚ :=
  let billPaymentScore :=
    u.electricity_bill_on_time * 0.3 +
    u.dth_recharge_on_time * 0.2 +
    u.internet_bill_on_time * 0.2 +
    u.rent_payment_on_time * 0.3
  let loanRepaymentScore := u.loan_repayment_history_score
  let defaultPenalty := u.previous_loan_defaults * 20
  max 0 (min 100 ((billPaymentScore * 0.6 + loanRepaymentScore * 0.4) - defaultPenalty))

/-- Model of `calculateCreditUtilizationScore` (25% weight). -/
def calculateCreditUtilizationScore (u : UserData) : ℚ :=
  let debtToIncome := (u.existing_loan_emi + u.credit_card_outstanding * 0.05) / u.monthly_income
  let expenseToIncome := u.monthly_expenses / u.monthly_income
  let utilizationScore := max 0 (100 - debtToIncome * 200)
  let spendingScore := max 0 (100 - expenseToIncome * 100)
  utilizationScore * 0.7 + spendingScore * 0.3

/-- Model of `calculateIncomeStabilityScore` (20% weight). -/
def calculateIncomeStabilityScore (u : UserData) : ℚ :=
  let incomeTypeScore : ℚ :=
    match u.income_type with
    | .salary => 90
    | .business => 70
    | .freelance => 60
    | .daily_wage => 40
  let stabilityBonus := min 20 (u.income_stability_months * 2)
  let employmentScore := min 30 (u.years_of_employment * 5)
  let savingsScore := min 25 (u.savings_rate * 2.5)
  min 100 (incomeTypeScore + stabilityBonus + employmentScore + savingsScore)

/-- Model of `calculateDigitalBehaviorScore` (15% weight). -/
def calculateDigitalBehaviorScore (u : UserData) : ℚ :=
  let upiScore := min 30 (u.upi_transactions_per_month * 2)
  let walletScore := min 25 (u.digital_wallet_usage * 2.5)
  let onlineBillScore := u.online_bill_payments * 0.3
  let digitalActivityScore := u.digital_financial_activity_score * 0.15
  upiScore + walletScore + onlineBillScore + digitalActivityScore

/-- The weighted composite of the four component scores
(lines 16–20 of `calculateCreditScore`). -/
def weightedScore (u : UserData) : ℚ :=
  calculatePaymentHistoryScore u * 0.40 +
  calculateCreditUtilizationScore u * 0.25 +
  calculateIncomeStabilityScore u * 0.20 +
  calculateDigitalBehaviorScore u * 0.15

/-- Model of `Math.round(300 + weightedScore * 6)` — the credit score on the 300–900
scale (line 23 of `calculateCreditScore`). -/
def creditScoreValue (u : UserData) : ℚ :=
  jsRound (300 + weightedScore u * 6)

/-- Model of `getRiskBand`. -/
def getRiskBand (creditScore : ℚ) : RiskBand :=
  if creditScore ≥ 750 then .excellent
  else if creditScore ≥ 650 then .good
  else if creditScore ≥ 550 then .fair
  else if creditScore ≥ 450 then .poor
  else .very_poor

/-- Model of `calculateDefaultProbability`. -/
def calculateDefaultProbability (creditScore : ℚ) (u : UserData) : ℚ :=
  let b0 := max 1 (50 - (creditScore - 300) / 12)
  let b1 := if u.previous_loan_defaults > 0 then b0 + u.previous_loan_defaults * 15 else b0
  let b2 := if u.existing_loan_emi / u.monthly_income > 0.5 then b1 + 10 else b1
  let b3 := if u.emergency_savings < u.monthly_expenses then b2 + 8 else b2
  min 95 (max 1 (jsRound b3))

/-- Model of `getInterestRate` — annual interest rate by credit-score band. -/
def getInterestRate (creditScore : ℚ) : ℚ :=
  if creditScore ≥ 750 then 18
  else if creditScore ≥ 650 then 22
  else if creditScore ≥ 550 then 24
  else 26

/-- The EMI computed inside the `tenureOptions.map` closure of
`calculateLoanEligibility`. -/
def emiForTenure (recommendedAmount interestRate : ℚ) (tenure : ℕ) : ℚ :=
  let monthlyRate := interestRate / 100 / 12
  jsRound ((recommendedAmount * monthlyRate * (1 + monthlyRate) ^ tenure) /
    ((1 + monthlyRate) ^ tenure - 1))

/-- The full `{ tenure, emi, total_interest, total_amount }` object built in
the `tenureOptions.map` closure of `calculateLoanEligibility`. -/
def emiOptionFor (recommendedAmount interestRate : ℚ) (tenure : ℕ) : EMIOption :=
  let emi := emiForTenure recommendedAmount interestRate tenure
  let totalAmount := emi * tenure
  { tenure := tenure
    emi := emi
    total_interest := totalAmount - recommendedAmount
    total_amount := totalAmount }

/-- Model of `calculateLoanEligibility`. -/
def calculateLoanEligibility (u : UserData) (creditScore : ℚ) : LoanEligibility :=
  let maxEMICapacity := u.monthly_income * 0.4 - u.existing_loan_emi
  let baseAmount := min 125000 (u.monthly_income * 10)
  let scoreMultiplier : ℚ :=
    if creditScore ≥ 750 then 1.0
    else if creditScore ≥ 650 then 0.8
    else if creditScore ≥ 550 then 0.6
    else 0.4
  let maxAmount := jsRound (baseAmount * scoreMultiplier)
  let recommendedAmount := jsRound (maxAmount * 0.7)
  let tenureOptions : List ℕ := [12, 18, 24, 36]
  let interestRate := getInterestRate creditScore
  let emiOptions :=
    (tenureOptions.map (emiOptionFor recommendedAmount interestRate)).filter
      (fun o => decide (o.emi ≤ maxEMICapacity))
  { eligible := decide (maxAmount > 10000) && decide (emiOptions.length > 0)
    max_amount := maxAmount
    recommended_amount := recommendedAmount
    tenure_options := tenureOptions
    interest_rate_range := { min := interestRate, max := interestRate + 2 }
    emi_options := emiOptions }

/-- Model of `buildFinancialProfile`. -/
def buildFinancialProfile (u : UserData) : FinancialProfile :=
  { debt_to_income_ratio := (u.existing_loan_emi * 12) / (u.monthly_income * 12)
    savings_to_income_ratio := u.savings_rate / 100
    expense_to_income_ratio := u.monthly_expenses / u.monthly_income
    payment_consistency_score := u.overall_bill_payment_score
    bill_payment_reliability :=
      (u.electricity_bill_on_time + u.dth_recharge_on_time +
        u.internet_bill_on_time + u.rent_payment_on_time) / 4
    loan_repayment_track_record := u.loan_repayment_history_score
    digital_payment_adoption := u.digital_financial_activity_score
    financial_app_usage := u.digital_wallet_usage
    online_banking_activity := u.online_bill_payments
    income_volatility :=
      match u.income_type with
      | .salary => 10
      | .business => 30
      | _ => 50
    emergency_fund_adequacy := (u.emergency_savings / u.monthly_expenses) * 33.33
    credit_utilization_pattern := (u.credit_card_outstanding / u.monthly_income) * 100 }

/-- Model of `generateRecommendations` — the `immediate` strings and `coaching` entries
pushed in source order. -/
def generateRecommendations (u : UserData) (_profile : FinancialProfile) :
    List String × List Coaching :=
  let emiRatio := u.existing_loan_emi / u.monthly_income
  let emiRatioPct := jsRound (emiRatio * 100)
  let fundTarget := u.monthly_expenses * 3
  let monthlySave := jsRound ((u.monthly_expenses * 3 - u.emergency_savings) / 6)
  let billBlock : List String × List Coaching :=
    if u.overall_bill_payment_score < 80 then
      (["Set up auto-pay for all utility bills to improve payment consistency"],
       [{ priority := "high"
          action := "Enable auto-debit for electricity, DTH, and internet bills"
          impact := "Can improve credit score by 30-50 points in 3 months" }])
    else ([], [])
  let emiBlock : List String × List Coaching :=
    if emiRatio > 0.4 then
      (["Your EMI-to-income ratio is " ++ toString emiRatioPct ++
          "% (too high). Reduce EMIs below 40% to improve score"],
       [{ priority := "high"
          action := "Consider loan restructuring or prepayment to reduce EMI burden"
          impact := "Reducing EMI ratio to 30% can improve eligibility by ₹25,000" }])
    else ([], [])
  let upiBlock : List String × List Coaching :=
    if u.upi_transactions_per_month < 20 then
      (["Increase UPI transactions to build stronger digital payment history"],
       [{ priority := "medium"
          action := "Use UPI for daily transactions like groceries, fuel, and small purchases"
          impact := "Higher digital activity can boost score by 15-25 points" }])
    else ([], [])
  let savingsBlock : List String × List Coaching :=
    if u.emergency_savings < u.monthly_expenses * 3 then
      (["Build emergency fund to ₹" ++ toString fundTarget ++ " (3 months expenses)"],
       [{ priority := "medium"
          action := "Save ₹" ++ toString monthlySave ++ " per month for 6 months"
          impact := "Adequate emergency fund reduces default risk and improves loan terms" }])
    else ([], [])
  let rateBlock : List String × List Coaching :=
    if u.savings_rate < 20 then
      (["Increase savings rate to at least 20% of income for better financial health"],
       [{ priority := "low"
          action := "Track expenses and identify areas to cut discretionary spending"
          impact := "Higher savings rate demonstrates financial discipline" }])
    else ([], [])
  (billBlock.1 ++ emiBlock.1 ++ upiBlock.1 ++ savingsBlock.1 ++ rateBlock.1,
   billBlock.2 ++ emiBlock.2 ++ upiBlock.2 ++ savingsBlock.2 ++ rateBlock.2)

/-- Model of `calculatePercentileRank`. -/
def calculatePercentileRank (creditScore : ℚ) : ℚ :=
  if creditScore ≥ 800 then 95
  else if creditScore ≥ 750 then 85
  else if creditScore ≥ 700 then 70
  else if creditScore ≥ 650 then 55
  else if creditScore ≥ 600 then 40
  else if creditScore ≥ 550 then 25
  else 10

/-- Model of `generatePeerComparison`. -/
def generatePeerComparison (percentileRank : ℚ) (u : UserData) : String :=
  let incomeGroup :=
    if u.monthly_income ≥ 50000 then "high-income"
    else if u.monthly_income ≥ 25000 then "middle-income"
    else "entry-level"
  "You are better than " ++ toString percentileRank ++ "% of borrowers in the " ++
    incomeGroup ++ " category"

/-- Model of `makeDecision`. -/
def makeDecision (creditScore defaultProbability : ℚ) : Decision :=
  if creditScore ≥ 650 ∧ defaultProbability ≤ 20 then .approve
  else if creditScore ≥ 550 ∧ defaultProbability ≤ 35 then .review
  else .reject

/-- Model of `checkRBICompliance` in realisticCreditEngine. -/
def checkRBICompliance (u : UserData) (loanAmount : ℚ) : Bool :=
  if loanAmount > 125000 then false
  else if u.existing_loan_emi / u.monthly_income > 0.5 then false
  else true

/-- Model of `getRBIViolations` in realisticCreditEngine. -/
def getRBIViolations (u : UserData) (loanAmount : ℚ) : List String :=
  (if loanAmount > 125000 then ["Loan amount exceeds RBI limit of ₹1.25L"] else []) ++
  (if u.existing_loan_emi / u.monthly_income > 0.5 then ["EMI-to-income ratio exceeds 50%"] else [])

/-- The `tenure_options[0] || 12` idiom (`undefined` and `0` are falsy). -/
def jsOrTenure (o : Option ℕ) (d : ℕ) : ℕ :=
  match o with
  | none => d
  | some v => if v = 0 then d else v

/-- Model of `calculateCreditScore` — the whole scoring pipeline producing `RiskScore`. -/
def calculateCreditScore (u : UserData) : RiskScore :=
  let profile := buildFinancialProfile u
  let paymentHistoryScore := calculatePaymentHistoryScore u
  let creditUtilizationScore := calculateCreditUtilizationScore u
  let incomeStabilityScore := calculateIncomeStabilityScore u
  let digitalBehaviorScore := calculateDigitalBehaviorScore u
  let creditScore := creditScoreValue u
  let riskBand := getRiskBand creditScore
  let defaultProbability := calculateDefaultProbability creditScore u
  let loanEligibility := calculateLoanEligibility u creditScore
  let recommendations := generateRecommendations u profile
  let percentileRank := calculatePercentileRank creditScore
  let peerComparison := generatePeerComparison percentileRank u
  { user_id := u.user_id
    credit_score := creditScore
    risk_band := riskBand
    default_probability := defaultProbability
    decision := makeDecision creditScore defaultProbability
    score_components :=
      { payment_history := { score := paymentHistoryScore, weight := 40 }
        credit_utilization := { score := creditUtilizationScore, weight := 25 }
        income_stability := { score := incomeStabilityScore, weight := 20 }
        digital_behavior := { score := digitalBehaviorScore, weight := 15 } }
    max_eligible_amount := loanEligibility.max_amount
    recommended_emi := jsOrQ ((loanEligibility.emi_options.head?).map (fun o => o.emi)) 0
    optimal_tenure_months := jsOrTenure loanEligibility.tenure_options.head? 12
    improvement_suggestions := recommendations.1
    financial_coaching := recommendations.2
    percentile_rank := percentileRank
    peer_comparison := peerComparison
    rbi_compliant := checkRBICompliance u loanEligibility.max_amount
    rbi_violations := getRBIViolations u loanEligibility.max_amount
    emi_to_income_ratio :=
      jsOrQ ((loanEligibility.emi_options.head?).map (fun o => o.emi)) 0 /
        u.monthly_income * 100 }

end RealisticCreditEngine

/-! ## RBI compliance engine (src/utils/rbiGuidelines.ts) -/

namespace RBIComplianceEngine

/-- Model of `RBILoanLimits`. -/
structure RBILoanLimits where
  maxLoanAmount : ℚ
  maxTotalIndebtedness : ℚ
  minIncomeThreshold : ℚ

/-- The `LOAN_LIMITS` constant. -/
def LOAN_LIMITS : RBILoanLimits :=
  { maxLoanAmount := 125000
    maxTotalIndebtedness := 100000
    minIncomeThreshold := 5000 }

/-- The `INTEREST_RATE_CAP` constant (26% per annum). -/
def INTEREST_RATE_CAP : ℚ := 26

/-- The `MIN_TENURE_MONTHS` constant (24 months for loans above Rs. 15,000). -/
def MIN_TENURE_MONTHS : ℕ := 24

/-- Model of `RBIBorrowerProfile`. -/
structure RBIBorrowerProfile where
  user_id : String
  monthly_income : ℚ
  existing_loan_amount : ℚ
  household_income : ℚ
  rural_urban_classification : String
  purpose_of_loan : String
  collateral_free : Bool

/-- Model of `RBIComplianceCheck`. -/
structure RBIComplianceCheck where
  isCompliant : Bool
  violations : List String
  riskAdjustment : ℚ

/-- Model of `calculateEMI` — standard amortizing EMI formula. -/
def calculateEMI (principal annualRate : ℚ) (tenureMonths : ℕ) : ℚ :=
  let monthlyRate := annualRate / (12 * 100)
  (principal * monthlyRate * (1 + monthlyRate) ^ tenureMonths) /
    ((1 + monthlyRate) ^ tenureMonths - 1)

/-- Model of `Number.prototype.toFixed(1)` for the non-negative ratios interpolated into
violation messages: one decimal digit, rounding to nearest. -/
def toFixed1 (q : ℚ) : String :=
  let n : ℤ := ⌊q * 10 + 1/2⌋
  toString (n / 10) ++ "." ++ toString (n % 10)

/-- The `productivePurposes` list of `checkCompliance` rule 8. -/
def productivePurposes : List String :=
  ["business", "agriculture", "livestock", "education", "healthcare"]

/-- Model of `checkCompliance` — the eight sequential rule checks, accumulating the
`violations` list in push order and the clamped `riskAdjustment`. -/
def checkCompliance (profile : RBIBorrowerProfile) (requestedAmount proposedRate : ℚ)
    (tenureMonths : ℕ) : RBIComplianceCheck :=
  let r1 : List String × ℚ :=
    if requestedAmount > LOAN_LIMITS.maxLoanAmount then
      (["Loan amount exceeds RBI limit of Rs. " ++ toString LOAN_LIMITS.maxLoanAmount], -15)
    else ([], 0)
  let totalDebt := profile.existing_loan_amount + requestedAmount
  let r2 : List String × ℚ :=
    if totalDebt > LOAN_LIMITS.maxTotalIndebtedness then
      (["Total indebtedness exceeds RBI limit of Rs. " ++ toString LOAN_LIMITS.maxTotalIndebtedness], -10)
    else ([], 0)
  let r3 : List String × ℚ :=
    if profile.monthly_income < LOAN_LIMITS.minIncomeThreshold then
      (["Monthly income below minimum threshold of Rs. " ++ toString LOAN_LIMITS.minIncomeThreshold], -20)
    else ([], 0)
  let r4 : List String × ℚ :=
    if proposedRate > INTEREST_RATE_CAP then
      (["Interest rate exceeds RBI cap of " ++ toString INTEREST_RATE_CAP ++ "%"], -5)
    else ([], 0)
  let r5 : List String × ℚ :=
    if requestedAmount > 15000 ∧ tenureMonths < MIN_TENURE_MONTHS then
      (["Tenure below minimum " ++ toString MIN_TENURE_MONTHS ++ " months for loans above Rs. 15,000"], -5)
    else ([], 0)
  let monthlyEMI := calculateEMI requestedAmount proposedRate tenureMonths
  let emiToIncomeRatio := monthlyEMI / profile.monthly_income * 100
  let r6 : List String × ℚ :=
    if emiToIncomeRatio > 50 then
      (["EMI-to-income ratio (" ++ toFixed1 emiToIncomeRatio ++ "%) exceeds 50%"], -10)
    else if emiToIncomeRatio < 30 then ([], 5)
    else ([], 0)
  let r7 : List String × ℚ :=
    if !profile.collateral_free then
      (["RBI mandates collateral-free lending for microfinance"], -5)
    else ([], 0)
  let r8adj : ℚ := if productivePurposes.contains profile.purpose_of_loan.toLower then 3 else 0
  let violations := r1.1 ++ r2.1 ++ r3.1 ++ r4.1 ++ r5.1 ++ r6.1 ++ r7.1
  let riskAdjustment := r1.2 + r2.2 + r3.2 + r4.2 + r5.2 + r6.2 + r7.2 + r8adj
  { isCompliant := violations.isEmpty
    violations := violations
    riskAdjustment := max (-20) (min 10 riskAdjustment) }

end RBIComplianceEngine

/-! ## CSV ingestion (src/components/FileUpload.tsx, `parseCSV`)

`parseFloat`/`parseInt` are modelled as the decimal-literal prefix parsers of
JavaScript, with `none` standing for `NaN`.  The model covers the decimal
grammar (sign, digits, fraction, exponent); the IEEE `Infinity` literal and the
hexadecimal `0x` prefix of `parseInt` lie outside the rational model.  A cell
that is absent because a row is shorter than the header is an `undefined`
value; calling `.replace` on it throws, which the row parser models as
`Except.error ("TypeError")`. -/

namespace FileUpload

/-- Split a character list into its longest prefix of decimal digits and the
rest. -/
def digitsSplit : List Char → List Char × List Char
  | [] => ([], [])
  | c :: cs =>
    if c.isDigit then
      let p := digitsSplit cs
      (c :: p.1, p.2)
    else ([], c :: cs)

/-- Numeric value of a list of decimal digits. -/
def digitsToNat (ds : List Char) : ℕ :=
  ds.foldl (fun a c => 10 * a + (c.toNat - 48)) 0

/-- JavaScript `parseFloat`: longest numeric prefix after leading whitespace;
`none` is `NaN`. -/
def jsParseFloat (s : String) : Option ℚ :=
  let cs := s.toList.dropWhile Char.isWhitespace
  let sgn : ℚ × List Char :=
    match cs with
    | '-' :: rest => (-1, rest)
    | '+' :: rest => (1, rest)
    | _ => (1, cs)
  let ip := digitsSplit sgn.2
  let fp : List Char × List Char :=
    match ip.2 with
    | '.' :: rest => digitsSplit rest
    | _ => ([], ip.2)
  if ip.1 = [] ∧ fp.1 = [] then none
  else
    let mant : ℚ := (digitsToNat ip.1 : ℚ) + (digitsToNat fp.1 : ℚ) / (10 ^ fp.1.length)
    let exp : ℤ :=
      match fp.2 with
      | 'e' :: rest | 'E' :: rest =>
        let esgn : ℤ × List Char :=
          match rest with
          | '-' :: r => (-1, r)
          | '+' :: r => (1, r)
          | _ => (1, rest)
        let ed := digitsSplit esgn.2
        if ed.1 = [] then 0 else esgn.1 * (digitsToNat ed.1 : ℤ)
      | _ => 0
    some (sgn.1 * mant * (10 : ℚ) ^ exp)

/-- JavaScript `parseInt` with no radix argument, on decimal input: longest
digit prefix after whitespace and optional sign; `none` is `NaN`. -/
def jsParseInt (s : String) : Option ℤ :=
  let cs := s.toList.dropWhile Char.isWhitespace
  let sgn : ℤ × List Char :=
    match cs with
    | '-' :: rest => (-1, rest)
    | '+' :: rest => (1, rest)
    | _ => (1, cs)
  let ip := digitsSplit sgn.2
  if ip.1 = [] then none else some (sgn.1 * (digitsToNat ip.1 : ℤ))

/-- Model of `value.replace('%', '')` — remove the first occurrence of `'%'`. -/
def removeFirstPercentAux : List Char → List Char
  | [] => []
  | c :: cs => if c = '%' then cs else c :: removeFirstPercentAux cs

/-- Model of `value.replace('%', '')` on strings. -/
def removeFirstPercent (s : String) : String :=
  ⟨removeFirstPercentAux s.toList⟩

/-- Model of `parseFloat` applied to a possibly-undefined value
(`parseFloat(undefined)` is `NaN`). -/
def parseFloatOpt (v : Option String) : Option ℚ :=
  v.bind jsParseFloat

/-- Model of `parseInt` applied to a possibly-undefined value. -/
def parseIntOpt (v : Option String) : Option ℤ :=
  v.bind jsParseInt

/-- The per-row accumulator of `parseCSV`'s `headers.forEach` loop: the plain
object `userData` whose properties appear as the switch assigns them. -/
structure CsvPartial where
  user_id : Option String := none
  monthly_income : Option ℚ := none
  income_type : Option String := none
  income_stability_months : Option ℤ := none
  emergency_savings : Option ℚ := none
  electricity_bill_on_time : Option ℚ := none
  dth_recharge_on_time : Option ℚ := none
  internet_bill_on_time : Option ℚ := none
  rent_payment_on_time : Option ℚ := none
  existing_loan_emi : Option ℚ := none
  credit_card_outstanding : Option ℚ := none
  previous_loan_defaults : Option ℤ := none
  upi_transactions_per_month : Option ℤ := none
  digital_wallet_usage : Option ℚ := none
  online_bill_payments : Option ℚ := none
  monthly_expenses : Option ℚ := none
  savings_rate : Option ℚ := none
  age : Option ℤ := none
  employment_type : Option String := none
  years_of_employment : Option ℚ := none
  city_tier : Option ℤ := none

/-- The fully-populated row record returned by `parseCSV` (the numeric fields
of `UserData` as the ingestion layer produces them, before any validation of
the string-typed unions). -/
structure CsvUserData where
  user_id : Option String
  monthly_income : ℚ
  income_type : String
  income_stability_months : ℤ
  emergency_savings : ℚ
  electricity_bill_on_time : ℚ
  dth_recharge_on_time : ℚ
  internet_bill_on_time : ℚ
  rent_payment_on_time : ℚ
  overall_bill_payment_score : ℚ
  existing_loan_emi : ℚ
  credit_card_outstanding : ℚ
  previous_loan_defaults : ℤ
  loan_repayment_history_score : ℚ
  upi_transactions_per_month : ℤ
  digital_wallet_usage : ℚ
  online_bill_payments : ℚ
  digital_financial_activity_score : ℚ
  monthly_expenses : ℚ
  savings_rate : ℚ
  expense_categories : ExpenseCategories
  age : ℤ
  employment_type : String
  years_of_employment : ℚ
  city_tier : ℤ

/-- One arm of the `switch (header)` statement: update the accumulator from
the cell `v` (`none` when the row is shorter than the header).  The six
percentage fields call `value.replace` and therefore throw on an `undefined`
cell. -/
def applyField (u : CsvPartial) (header : String) (v : Option String) :
    Except String CsvPartial :=
  if header = "user_id" then .ok { u with user_id := v }
  else if header = "monthly_income" then
    .ok { u with monthly_income := some (jsOrQ (parseFloatOpt v) 25000) }
  else if header = "income_type" then
    .ok { u with income_type := some (jsOrS v ("salary")) }
  else if header = "income_stability_months" then
    .ok { u with income_stability_months := some (jsOrZ (parseIntOpt v) 6) }
  else if header = "emergency_savings" then
    .ok { u with emergency_savings := some (jsOrQ (parseFloatOpt v) 0) }
  else if header = "electricity_bill_on_time" then
    match v with
    | none => .error ("TypeError")
    | some s => .ok { u with electricity_bill_on_time := some (jsOrQ (jsParseFloat (removeFirstPercent s)) 80) }
  else if header = "dth_recharge_on_time" then
    match v with
    | none => .error ("TypeError")
    | some s => .ok { u with dth_recharge_on_time := some (jsOrQ (jsParseFloat (removeFirstPercent s)) 75) }
  else if header = "internet_bill_on_time" then
    match v with
    | none => .error ("TypeError")
    | some s => .ok { u with internet_bill_on_time := some (jsOrQ (jsParseFloat (removeFirstPercent s)) 85) }
  else if header = "rent_payment_on_time" then
    match v with
    | none => .error ("TypeError")
    | some s => .ok { u with rent_payment_on_time := some (jsOrQ (jsParseFloat (removeFirstPercent s)) 90) }
  else if header = "existing_loan_emi" then
    .ok { u with existing_loan_emi := some (jsOrQ (parseFloatOpt v) 0) }
  else if header = "credit_card_outstanding" then
    .ok { u with credit_card_outstanding := some (jsOrQ (parseFloatOpt v) 0) }
  else if header = "previous_loan_defaults" then
    .ok { u with previous_loan_defaults := some (jsOrZ (parseIntOpt v) 0) }
  else if header = "upi_transactions_per_month" then
    .ok { u with upi_transactions_per_month := some (jsOrZ (parseIntOpt v) 15) }
  else if header = "digital_wallet_usage" then
    .ok { u with digital_wallet_usage := some (jsOrQ (parseFloatOpt v) 20) }
  else if header = "online_bill_payments" then
    match v with
    | none => .error ("TypeError")
    | some s => .ok { u with online_bill_payments := some (jsOrQ (jsParseFloat (removeFirstPercent s)) 70) }
  else if header = "monthly_expenses" then
    let incomeD : ℚ :=
      match u.monthly_income with
      | none => 25000
      | some q => if q = 0 then 25000 else q
    .ok { u with monthly_expenses := some (jsOrQ (parseFloatOpt v) (incomeD * 0.6)) }
  else if header = "savings_rate" then
    match v with
    | none => .error ("TypeError")
    | some s => .ok { u with savings_rate := some (jsOrQ (jsParseFloat (removeFirstPercent s)) 15) }
  else if header = "age" then
    .ok { u with age := some (jsOrZ (parseIntOpt v) 25) }
  else if header = "employment_type" then
    .ok { u with employment_type := some (jsOrS v ("salaried")) }
  else if header = "years_of_employment" then
    .ok { u with years_of_employment := some (jsOrQ (parseFloatOpt v) 1) }
  else if header = "city_tier" then
    .ok { u with city_tier := some (jsOrZ (parseIntOpt v) 2) }
  else .ok u

/-- The `headers.forEach((header, index) => ...)` loop: walk the headers,
consuming `values[index]` positionally. -/
def parseRowAux (u : CsvPartial) : List String → List String → Except String CsvPartial
  | [], _ => .ok u
  | h :: hs, vs =>
    match applyField u h vs.head? with
    | .error e => .error e
    | .ok u2 => parseRowAux u2 hs vs.tail

/-- The second pass over one row: `safeParseFloat`/`safeParseInt` defaulting
of every numeric field, the string defaults, and the derived fields. -/
def finalizeRow (p : CsvPartial) : CsvUserData :=
  let monthly_income := p.monthly_income.getD 25000
  let monthly_expenses := p.monthly_expenses.getD (monthly_income * 0.6)
  let emergency_savings := p.emergency_savings.getD 0
  let existing_loan_emi := p.existing_loan_emi.getD 0
  let credit_card_outstanding := p.credit_card_outstanding.getD 0
  let digital_wallet_usage := p.digital_wallet_usage.getD 20
  let years_of_employment := p.years_of_employment.getD 1
  let electricity_bill_on_time := p.electricity_bill_on_time.getD 80
  let dth_recharge_on_time := p.dth_recharge_on_time.getD 75
  let internet_bill_on_time := p.internet_bill_on_time.getD 85
  let rent_payment_on_time := p.rent_payment_on_time.getD 90
  let online_bill_payments := p.online_bill_payments.getD 70
  let savings_rate := p.savings_rate.getD 15
  let previous_loan_defaults := p.previous_loan_defaults.getD 0
  let upi_transactions_per_month := p.upi_transactions_per_month.getD 15
  let age := p.age.getD 25
  let income_stability_months := p.income_stability_months.getD 6
  let city_tier := p.city_tier.getD 2
  let income_type := jsOrS p.income_type ("salary")
  let employment_type := jsOrS p.employment_type ("salaried")
  { user_id := p.user_id
    monthly_income := monthly_income
    income_type := income_type
    income_stability_months := income_stability_months
    emergency_savings := emergency_savings
    electricity_bill_on_time := electricity_bill_on_time
    dth_recharge_on_time := dth_recharge_on_time
    internet_bill_on_time := internet_bill_on_time
    rent_payment_on_time := rent_payment_on_time
    overall_bill_payment_score :=
      electricity_bill_on_time * 0.3 + dth_recharge_on_time * 0.2 +
        internet_bill_on_time * 0.2 + rent_payment_on_time * 0.3
    existing_loan_emi := existing_loan_emi
    credit_card_outstanding := credit_card_outstanding
    previous_loan_defaults := previous_loan_defaults
    loan_repayment_history_score := max 0 (90 - (previous_loan_defaults : ℚ) * 30)
    upi_transactions_per_month := upi_transactions_per_month
    digital_wallet_usage := digital_wallet_usage
    online_bill_payments := online_bill_payments
    digital_financial_activity_score :=
      min 100 ((upi_transactions_per_month : ℚ) * 2 + digital_wallet_usage * 1.5 +
        online_bill_payments * 0.5)
    monthly_expenses := monthly_expenses
    savings_rate := savings_rate
    expense_categories :=
      { essentials := monthly_expenses * 0.7
        discretionary := monthly_expenses * 0.2
        investments := monthly_expenses * 0.1 }
    age := age
    employment_type := employment_type
    years_of_employment := years_of_employment
    city_tier := city_tier }

/-- Processing of one data line: the forEach loop followed by the second
pass. -/
def parseRow (headers values : List String) : Except String CsvUserData :=
  (parseRowAux {} headers values).map finalizeRow

/-- The `requiredColumns` list of `validateCSVFormat`. -/
def requiredColumns : List String :=
  ["user_id", "monthly_income", "income_type", "income_stability_months",
   "emergency_savings", "electricity_bill_on_time", "dth_recharge_on_time",
   "internet_bill_on_time", "rent_payment_on_time", "existing_loan_emi",
   "previous_loan_defaults", "upi_transactions_per_month", "digital_wallet_usage",
   "online_bill_payments", "monthly_expenses", "savings_rate", "age",
   "employment_type", "years_of_employment", "city_tier"]

/-- Model of `validateCSVFormat`'s missing-column computation. -/
def missingColumns (headers : List String) : List String :=
  requiredColumns.filter (fun c => !(headers.contains c))

/-- Model of `parseCSV`: split the text into lines, validate the header, then map the
row parser over the data lines; any thrown error aborts the whole parse. -/
def parseCSV (csvText : String) : Except String (List CsvUserData) :=
  let lines := csvText.trim.splitOn ("\n")
  let headers := ((lines.headD ("")).splitOn (",")).map String.trim
  if (missingColumns headers).isEmpty then
    lines.tail.mapM (fun line => parseRow headers ((line.splitOn (",")).map String.trim))
  else
    .error ("Invalid CSV format. Missing columns: " ++
      String.intercalate (", ") (missingColumns headers))

end FileUpload

/-! ## Concrete inputs used by witnesses and counterexamples -/

/-- A well-formed borrower used to instantiate the universally quantified
theorems below. -/
def sampleUser : UserData :=
  { user_id := "U1"
    monthly_income := 30000
    income_type := .salary
    income_stability_months := 12
    emergency_savings := 50000
    electricity_bill_on_time := 90
    dth_recharge_on_time := 85
    internet_bill_on_time := 88
    rent_payment_on_time := 95
    overall_bill_payment_score := 90
    existing_loan_emi := 2000
    credit_card_outstanding := 5000
    previous_loan_defaults := 0
    loan_repayment_history_score := 90
    upi_transactions_per_month := 25
    digital_wallet_usage := 10
    online_bill_payments := 80
    digital_financial_activity_score := 70
    monthly_expenses := 15000
    savings_rate := 20
    expense_categories := { essentials := 10500, discretionary := 3000, investments := 1500 }
    age := 30
    employment_type := "salaried"
    years_of_employment := 5
    city_tier := 1 }

/-- A degenerate borrower (all numeric fields zero). -/
def zeroUser : UserData :=
  { user_id := "U0"
    monthly_income := 0
    income_type := .salary
    income_stability_months := 0
    emergency_savings := 0
    electricity_bill_on_time := 0
    dth_recharge_on_time := 0
    internet_bill_on_time := 0
    rent_payment_on_time := 0
    overall_bill_payment_score := 0
    existing_loan_emi := 0
    credit_card_outstanding := 0
    previous_loan_defaults := 0
    loan_repayment_history_score := 0
    upi_transactions_per_month := 0
    digital_wallet_usage := 0
    online_bill_payments := 0
    digital_financial_activity_score := 0
    monthly_expenses := 0
    savings_rate := 0
    expense_categories := { essentials := 0, discretionary := 0, investments := 0 }
    age := 0
    employment_type := "salaried"
    years_of_employment := 0
    city_tier := 0 }

/-- A borrower whose income is at most their existing EMI burden. -/
def overloadedUser : UserData :=
  { zeroUser with user_id := "U2", monthly_income := 10000, existing_loan_emi := 12000 }

/-- A borrower profile for the RBI compliance checks. -/
def sampleRBI : RBIComplianceEngine.RBIBorrowerProfile :=
  { user_id := "R1"
    monthly_income := 20000
    existing_loan_amount := 0
    household_income := 25000
    rural_urban_classification := "urban"
    purpose_of_loan := "business"
    collateral_free := true }

/-- A header row carrying every required column (in the documented order)
plus the optional `credit_card_outstanding` column. -/
def csvHeader : List String :=
  FileUpload.requiredColumns ++ ["credit_card_outstanding"]

/-- Validity of a borrower profile as the specification states it: positive
income, percentage fields in `[0,100]`, count and amount fields non-negative. -/
structure ValidProfile (u : UserData) : Prop where
  income_pos : 0 < u.monthly_income
  electricity_mem : 0 ≤ u.electricity_bill_on_time ∧ u.electricity_bill_on_time ≤ 100
  dth_mem : 0 ≤ u.dth_recharge_on_time ∧ u.dth_recharge_on_time ≤ 100
  internet_mem : 0 ≤ u.internet_bill_on_time ∧ u.internet_bill_on_time ≤ 100
  rent_mem : 0 ≤ u.rent_payment_on_time ∧ u.rent_payment_on_time ≤ 100
  overall_mem : 0 ≤ u.overall_bill_payment_score ∧ u.overall_bill_payment_score ≤ 100
  loan_repay_mem : 0 ≤ u.loan_repayment_history_score ∧ u.loan_repayment_history_score ≤ 100
  online_bill_mem : 0 ≤ u.online_bill_payments ∧ u.online_bill_payments ≤ 100
  digital_activity_mem : 0 ≤ u.digital_financial_activity_score ∧
    u.digital_financial_activity_score ≤ 100
  savings_rate_mem : 0 ≤ u.savings_rate ∧ u.savings_rate ≤ 100
  months_nonneg : 0 ≤ u.income_stability_months
  years_nonneg : 0 ≤ u.years_of_employment
  emergency_nonneg : 0 ≤ u.emergency_savings
  expenses_nonneg : 0 ≤ u.monthly_expenses
  emi_nonneg : 0 ≤ u.existing_loan_emi
  cc_nonneg : 0 ≤ u.credit_card_outstanding
  defaults_nonneg : 0 ≤ u.previous_loan_defaults
  upi_nonneg : 0 ≤ u.upi_transactions_per_month
  wallet_nonneg : 0 ≤ u.digital_wallet_usage

/-- Whether the EMI computed for one tenure fits within the borrower's EMI
capacity `0.4*income − existing_emi` — the predicate of the `.filter` in
`calculateLoanEligibility`, expressed on tenures. -/
def RealisticCreditEngine.emiFits (u : UserData) (score : ℚ) (t : ℕ) : Bool :=
  decide (RealisticCreditEngine.emiForTenure
    (RealisticCreditEngine.calculateLoanEligibility u score).recommended_amount
    (RealisticCreditEngine.getInterestRate score) t ≤
    u.monthly_income * 0.4 - u.existing_loan_emi)

/-! ## Helper lemmas -/

lemma le_jsRound (x : ℚ) (n : ℤ) (h : (n : ℚ) ≤ x) : (n : ℚ) ≤ jsRound x := by
  unfold jsRound
  exact_mod_cast Int.le_floor.mpr (by linarith)

lemma jsRound_le (x : ℚ) (n : ℤ) (h : x ≤ (n : ℚ)) : jsRound x ≤ (n : ℚ) := by
  unfold jsRound
  have : ⌊x + 1/2⌋ < n + 1 := Int.floor_lt.mpr (by push_cast; linarith)
  exact_mod_cast Int.lt_add_one_iff.mp this

lemma jsRound_nonneg (x : ℚ) (h : 0 ≤ x) : 0 ≤ jsRound x := by
  have := le_jsRound x 0 (by exact_mod_cast h)
  simpa using this

namespace RealisticCreditEngine

lemma paymentHistory_mem (u : UserData) :
    0 ≤ calculatePaymentHistoryScore u ∧ calculatePaymentHistoryScore u ≤ 100 := by
  unfold calculatePaymentHistoryScore
  constructor
  · exact le_max_left 0 _
  · exact max_le (by norm_num) (min_le_left _ _)

lemma utilization_nonneg (u : UserData) : 0 ≤ calculateCreditUtilizationScore u := by
  unfold calculateCreditUtilizationScore
  have h1 : (0:ℚ) ≤ max 0 (100 - (u.existing_loan_emi + u.credit_card_outstanding * 0.05) / u.monthly_income * 200) := le_max_left 0 _
  have h2 : (0:ℚ) ≤ max 0 (100 - u.monthly_expenses / u.monthly_income * 100) := le_max_left 0 _
  linarith

lemma utilization_le (u : UserData) (hinc : 0 < u.monthly_income)
    (hemi : 0 ≤ u.existing_loan_emi) (hcc : 0 ≤ u.credit_card_outstanding)
    (hexp : 0 ≤ u.monthly_expenses) : calculateCreditUtilizationScore u ≤ 100 := by
  unfold calculateCreditUtilizationScore
  have hd : (0:ℚ) ≤ (u.existing_loan_emi + u.credit_card_outstanding * 0.05) / u.monthly_income :=
    div_nonneg (by linarith) hinc.le
  have he : (0:ℚ) ≤ u.monthly_expenses / u.monthly_income := div_nonneg hexp hinc.le
  have h1 : max 0 (100 - (u.existing_loan_emi + u.credit_card_outstanding * 0.05) / u.monthly_income * 200) ≤ 100 :=
    max_le (by norm_num) (by nlinarith)
  have h2 : max 0 (100 - u.monthly_expenses / u.monthly_income * 100) ≤ 100 :=
    max_le (by norm_num) (by nlinarith)
  linarith

lemma stability_mem (u : UserData) (hm : 0 ≤ u.income_stability_months)
    (hy : 0 ≤ u.years_of_employment) (hs : 0 ≤ u.savings_rate) :
    0 ≤ calculateIncomeStabilityScore u ∧ calculateIncomeStabilityScore u ≤ 100 := by
  unfold calculateIncomeStabilityScore
  refine ⟨le_min (by norm_num) ?_, min_le_left _ _⟩
  have hb : (0:ℚ) ≤ min 20 (u.income_stability_months * 2) := le_min (by norm_num) (by linarith)
  have he : (0:ℚ) ≤ min 30 (u.years_of_employment * 5) := le_min (by norm_num) (by linarith)
  have hv : (0:ℚ) ≤ min 25 (u.savings_rate * 2.5) := le_min (by norm_num) (by linarith)
  cases u.income_type <;> simp only [] <;> linarith

lemma digital_mem (u : UserData) (hu : 0 ≤ u.upi_transactions_per_month)
    (hw : 0 ≤ u.digital_wallet_usage)
    (hob : 0 ≤ u.online_bill_payments) (hob2 : u.online_bill_payments ≤ 100)
    (hda : 0 ≤ u.digital_financial_activity_score)
    (hda2 : u.digital_financial_activity_score ≤ 100) :
    0 ≤ calculateDigitalBehaviorScore u ∧ calculateDigitalBehaviorScore u ≤ 100 := by
  unfold calculateDigitalBehaviorScore
  have h1 : (0:ℚ) ≤ min 30 (u.upi_transactions_per_month * 2) := le_min (by norm_num) (by linarith)
  have h2 : (0:ℚ) ≤ min 25 (u.digital_wallet_usage * 2.5) := le_min (by norm_num) (by linarith)
  have h3 : min 30 (u.upi_transactions_per_month * 2) ≤ 30 := min_le_left _ _
  have h4 : min 25 (u.digital_wallet_usage * 2.5) ≤ 25 := min_le_left _ _
  constructor <;> nlinarith

lemma weightedScore_mem (u : UserData) (h : ValidProfile u) :
    0 ≤ weightedScore u ∧ weightedScore u ≤ 100 := by
  obtain ⟨hp1, hp2⟩ := paymentHistory_mem u
  have hc1 := utilization_nonneg u
  have hc2 := utilization_le u h.income_pos h.emi_nonneg h.cc_nonneg h.expenses_nonneg
  obtain ⟨hs1, hs2⟩ := stability_mem u h.months_nonneg h.years_nonneg h.savings_rate_mem.1
  obtain ⟨hd1, hd2⟩ := digital_mem u h.upi_nonneg h.wallet_nonneg h.online_bill_mem.1
    h.online_bill_mem.2 h.digital_activity_mem.1 h.digital_activity_mem.2
  unfold weightedScore
  constructor <;> nlinarith

end RealisticCreditEngine

namespace RealisticCreditEngine

lemma calculateCreditScore_credit_score (u : UserData) :
    (calculateCreditScore u).credit_score = creditScoreValue u := rfl

lemma calculateCreditScore_default_probability (u : UserData) :
    (calculateCreditScore u).default_probability =
      calculateDefaultProbability (creditScoreValue u) u := rfl

lemma components_payment (u : UserData) :
    (calculateCreditScore u).score_components.payment_history.score =
      calculatePaymentHistoryScore u := rfl

lemma components_utilization (u : UserData) :
    (calculateCreditScore u).score_components.credit_utilization.score =
      calculateCreditUtilizationScore u := rfl

lemma components_stability (u : UserData) :
    (calculateCreditScore u).score_components.income_stability.score =
      calculateIncomeStabilityScore u := rfl

lemma components_digital (u : UserData) :
    (calculateCreditScore u).score_components.digital_behavior.score =
      calculateDigitalBehaviorScore u := rfl

lemma calculateLoanEligibility_max_amount (u : UserData) (score : ℚ) :
    (calculateLoanEligibility u score).max_amount =
      jsRound (min 125000 (u.monthly_income * 10) *
        (if score ≥ 750 then 1.0 else if score ≥ 650 then 0.8
          else if score ≥ 550 then 0.6 else 0.4)) := rfl

lemma calculateLoanEligibility_recommended_amount (u : UserData) (score : ℚ) :
    (calculateLoanEligibility u score).recommended_amount =
      jsRound ((calculateLoanEligibility u score).max_amount * 0.7) := rfl

lemma calculateLoanEligibility_interest_rate_range (u : UserData) (score : ℚ) :
    (calculateLoanEligibility u score).interest_rate_range =
      { min := getInterestRate score, max := getInterestRate score + 2 } := rfl

lemma emiOptionFor_emi (a r : ℚ) (t : ℕ) :
    (emiOptionFor a r t).emi = emiForTenure a r t := rfl

lemma calculateLoanEligibility_emi_options (u : UserData) (score : ℚ) :
    (calculateLoanEligibility u score).emi_options =
      (([12, 18, 24, 36] : List ℕ).map
          (emiOptionFor (calculateLoanEligibility u score).recommended_amount
            (getInterestRate score))).filter
        (fun o => decide (o.emi ≤ u.monthly_income * 0.4 - u.existing_loan_emi)) := rfl

lemma calculateLoanEligibility_eligible (u : UserData) (score : ℚ) :
    (calculateLoanEligibility u score).eligible =
      (decide ((calculateLoanEligibility u score).max_amount > 10000) &&
        decide ((calculateLoanEligibility u score).emi_options.length > 0)) := rfl

lemma getInterestRate_pos (score : ℚ) : 0 < getInterestRate score := by
  unfold getInterestRate
  split_ifs <;> norm_num

lemma max_amount_nonneg (u : UserData) (score : ℚ) (hinc : 0 < u.monthly_income) :
    0 ≤ (calculateLoanEligibility u score).max_amount := by
  rw [calculateLoanEligibility_max_amount]
  apply jsRound_nonneg
  have hb : (0:ℚ) ≤ min 125000 (u.monthly_income * 10) :=
    le_min (by norm_num) (by linarith)
  split_ifs <;> nlinarith

lemma recommended_amount_nonneg (u : UserData) (score : ℚ) (hinc : 0 < u.monthly_income) :
    0 ≤ (calculateLoanEligibility u score).recommended_amount := by
  rw [calculateLoanEligibility_recommended_amount]
  apply jsRound_nonneg
  nlinarith [max_amount_nonneg u score hinc]

lemma emiForTenure_nonneg (a r : ℚ) (t : ℕ) (ha : 0 ≤ a) (hr : 0 < r) (ht : t ≠ 0) :
    0 ≤ emiForTenure a r t := by
  show 0 ≤ jsRound (a * (r / 100 / 12) * (1 + r / 100 / 12) ^ t /
    ((1 + r / 100 / 12) ^ t - 1))
  apply jsRound_nonneg
  have hm : (0:ℚ) < r / 100 / 12 := by positivity
  have hp : 1 < (1 + r / 100 / 12) ^ t := one_lt_pow₀ (by linarith) ht
  apply div_nonneg
  · have hq : (0:ℚ) ≤ (1 + r / 100 / 12) ^ t := by positivity
    exact mul_nonneg (mul_nonneg ha hm.le) hq
  · linarith

end RealisticCreditEngine

namespace RealisticCreditEngine

/-- C1: for every valid borrower profile (positive income, percentage fields
in `[0,100]`, count and amount fields non-negative), the score result of
`calculateCreditScore` has `300 ≤ credit_score ≤ 900` and
`1 ≤ default_probability ≤ 95`. -/
theorem credit_score_and_default_probability_bounds (u : UserData) (h : ValidProfile u) :
    (300 ≤ (calculateCreditScore u).credit_score ∧
      (calculateCreditScore u).credit_score ≤ 900) ∧
    (1 ≤ (calculateCreditScore u).default_probability ∧
      (calculateCreditScore u).default_probability ≤ 95) := by
  obtain ⟨hw0, hw1⟩ := weightedScore_mem u h
  constructor
  · rw [calculateCreditScore_credit_score]
    unfold creditScoreValue
    constructor
    · have := le_jsRound (300 + weightedScore u * 6) 300 (by push_cast; linarith)
      exact_mod_cast this
    · have := jsRound_le (300 + weightedScore u * 6) 900 (by push_cast; linarith)
      exact_mod_cast this
  · rw [calculateCreditScore_default_probability]
    exact ⟨le_min (by norm_num) (le_max_left _ _), min_le_left _ _⟩

/-- Witness for C1 at a concrete valid borrower. -/
theorem credit_score_and_default_probability_bounds_witness :
    (300 ≤ (calculateCreditScore sampleUser).credit_score ∧
      (calculateCreditScore sampleUser).credit_score ≤ 900) ∧
    (1 ≤ (calculateCreditScore sampleUser).default_probability ∧
      (calculateCreditScore sampleUser).default_probability ≤ 95) :=
  credit_score_and_default_probability_bounds sampleUser
    (by constructor <;> norm_num [sampleUser])

/-- C5: for every valid borrower profile, each of the four component
sub-scores reported in `score_components` lies in `[0,100]`. -/
theorem component_scores_in_range (u : UserData) (h : ValidProfile u) :
    (0 ≤ (calculateCreditScore u).score_components.payment_history.score ∧
      (calculateCreditScore u).score_components.payment_history.score ≤ 100) ∧
    (0 ≤ (calculateCreditScore u).score_components.credit_utilization.score ∧
      (calculateCreditScore u).score_components.credit_utilization.score ≤ 100) ∧
    (0 ≤ (calculateCreditScore u).score_components.income_stability.score ∧
      (calculateCreditScore u).score_components.income_stability.score ≤ 100) ∧
    (0 ≤ (calculateCreditScore u).score_components.digital_behavior.score ∧
      (calculateCreditScore u).score_components.digital_behavior.score ≤ 100) := by
  rw [components_payment, components_utilization, components_stability, components_digital]
  refine ⟨paymentHistory_mem u, ⟨?_, ?_⟩, ?_, ?_⟩
  · exact utilization_nonneg u
  · exact utilization_le u h.income_pos h.emi_nonneg h.cc_nonneg h.expenses_nonneg
  · exact stability_mem u h.months_nonneg h.years_nonneg h.savings_rate_mem.1
  · exact digital_mem u h.upi_nonneg h.wallet_nonneg h.online_bill_mem.1
      h.online_bill_mem.2 h.digital_activity_mem.1 h.digital_activity_mem.2

/-- Witness for C5 at a concrete valid borrower. -/
theorem component_scores_in_range_witness :
    0 ≤ (calculateCreditScore sampleUser).score_components.payment_history.score ∧
    (calculateCreditScore sampleUser).score_components.digital_behavior.score ≤ 100 := by
  obtain ⟨hp, -, -, hd⟩ := component_scores_in_range sampleUser
    (by constructor <;> norm_num [sampleUser])
  exact ⟨hp.1, hd.2⟩

/-- C3: for every input profile and every credit score, the `max_amount`
computed by `calculateLoanEligibility` never exceeds the regulatory ceiling
of 125000. -/
theorem max_amount_le_regulatory_ceiling (u : UserData) (score : ℚ) :
    (calculateLoanEligibility u score).max_amount ≤ 125000 := by
  rw [calculateLoanEligibility_max_amount]
  have hb : min 125000 (u.monthly_income * 10) ≤ (125000:ℚ) := min_le_left _ _
  have hmul : min 125000 (u.monthly_income * 10) *
      (if score ≥ 750 then 1.0 else if score ≥ 650 then 0.8
        else if score ≥ 550 then 0.6 else 0.4) ≤ 125000 := by
    rcases le_or_lt (min 125000 (u.monthly_income * 10)) 0 with hneg | hpos
    · split_ifs <;> nlinarith
    · split_ifs <;> nlinarith
  have := jsRound_le _ 125000 (by exact_mod_cast hmul)
  exact_mod_cast this

/-- C4 counterexample: in the lowest score band the reported
`interest_rate_range.max` is 28%, exceeding the 26% regulatory cap, so the
claim that no interest rate in the eligibility result exceeds 26% is false. -/
theorem interest_rate_range_max_exceeds_cap :
    26 < (calculateLoanEligibility zeroUser 300).interest_rate_range.max := by
  rw [calculateLoanEligibility_interest_rate_range]
  norm_num [getInterestRate]

/-- C4 (amended): the annual interest rate assigned by `getInterestRate` is
18/22/24/26 according to the score band and never exceeds the 26% cap; the
reported `interest_rate_range` spans from that rate to that rate plus two
percentage points, so its upper end may exceed the cap in the lowest band. -/
theorem interest_rate_bands_and_range (u : UserData) (score : ℚ) :
    (750 ≤ score → getInterestRate score = 18) ∧
    (650 ≤ score ∧ score < 750 → getInterestRate score = 22) ∧
    (550 ≤ score ∧ score < 650 → getInterestRate score = 24) ∧
    (score < 550 → getInterestRate score = 26) ∧
    getInterestRate score ≤ 26 ∧
    (calculateLoanEligibility u score).interest_rate_range.min = getInterestRate score ∧
    (calculateLoanEligibility u score).interest_rate_range.max = getInterestRate score + 2 := by
  refine ⟨?_, ?_, ?_, ?_, ?_, rfl, rfl⟩ <;> unfold getInterestRate
  · intro h1
    rw [if_pos (by linarith : score ≥ 750)]
  · rintro ⟨h1, h2⟩
    rw [if_neg (by linarith), if_pos (by linarith : score ≥ 650)]
  · rintro ⟨h1, h2⟩
    rw [if_neg (by linarith), if_neg (by linarith), if_pos (by linarith : score ≥ 550)]
  · intro h1
    rw [if_neg (by linarith), if_neg (by linarith), if_neg (by linarith)]
  · split_ifs <;> norm_num

/-- Witness for the amended C4 at concrete scores. -/
theorem interest_rate_bands_and_range_witness :
    getInterestRate 700 = 22 ∧ getInterestRate 700 ≤ 26 := by
  obtain ⟨-, h22, -, -, hle, -, -⟩ := interest_rate_bands_and_range zeroUser 700
  exact ⟨h22 ⟨by norm_num, by norm_num⟩, hle⟩

end RealisticCreditEngine

lemma jsOrQ_some_zero_default (x : ℚ) : jsOrQ (some x) 0 = x := by
  show (if x = 0 then 0 else x) = x
  split_ifs with h
  · exact h.symm
  · rfl

namespace RealisticCreditEngine

lemma emiFits_eq (u : UserData) (score : ℚ) (t : ℕ) :
    emiFits u score t =
      decide ((emiOptionFor (calculateLoanEligibility u score).recommended_amount
        (getInterestRate score) t).emi ≤
        u.monthly_income * 0.4 - u.existing_loan_emi) := rfl

lemma calculateCreditScore_recommended_emi (u : UserData) :
    (calculateCreditScore u).recommended_emi =
      jsOrQ (((calculateLoanEligibility u (creditScoreValue u)).emi_options.head?).map
        (fun o => o.emi)) 0 := rfl

lemma calculateCreditScore_optimal_tenure (u : UserData) :
    (calculateCreditScore u).optimal_tenure_months = 12 := rfl

/-- C6: when income is positive but does not exceed the existing EMI burden
(the EMI capacity `0.4*income − existing_emi` is negative), every tenure is
filtered out of `emi_options` and `eligible` is `false` — an ordinary return
value, not an exception. -/
theorem no_capacity_empty_options_ineligible (u : UserData) (score : ℚ)
    (h0 : 0 < u.monthly_income) (h1 : u.monthly_income ≤ u.existing_loan_emi) :
    (calculateLoanEligibility u score).emi_options = [] ∧
    (calculateLoanEligibility u score).eligible = false := by
  have hA := recommended_amount_nonneg u score h0
  have hcap : u.monthly_income * 0.4 - u.existing_loan_emi < 0 := by nlinarith
  have hfalse : ∀ t : ℕ, t ≠ 0 →
      (decide ((emiOptionFor (calculateLoanEligibility u score).recommended_amount
        (getInterestRate score) t).emi ≤
        u.monthly_income * 0.4 - u.existing_loan_emi)) = false := by
    intro t ht
    rw [decide_eq_false_iff_not, emiOptionFor_emi]
    have h := emiForTenure_nonneg _ _ t hA (getInterestRate_pos score) ht
    intro hc
    linarith
  have hopts : (calculateLoanEligibility u score).emi_options = [] := by
    rw [calculateLoanEligibility_emi_options]
    simp only [List.map_cons, List.map_nil, List.filter_cons, List.filter_nil,
      hfalse 12 (by norm_num), hfalse 18 (by norm_num), hfalse 24 (by norm_num),
      hfalse 36 (by norm_num)]
    simp
  refine ⟨hopts, ?_⟩
  rw [calculateLoanEligibility_eligible, hopts]
  simp

/-- Witness for C6: a borrower earning 10000 with an existing EMI of 12000. -/
theorem no_capacity_empty_options_ineligible_witness :
    (calculateLoanEligibility overloadedUser 700).emi_options = [] ∧
    (calculateLoanEligibility overloadedUser 700).eligible = false :=
  no_capacity_empty_options_ineligible overloadedUser 700
    (by norm_num [overloadedUser, zeroUser])
    (by norm_num [overloadedUser, zeroUser])

end RealisticCreditEngine

namespace RealisticCreditEngine

/-- C9: `tenure_options` is always the unfiltered fixed list `[12,18,24,36]`,
so `optimal_tenure_months` is always its first element 12; `recommended_emi`
equals the EMI of the shortest tenure whose EMI fits within the EMI capacity,
and is 0 when no tenure survives the capacity filter. -/
theorem optimal_tenure_and_recommended_emi (u : UserData) :
    (calculateCreditScore u).optimal_tenure_months = 12 ∧
    (∀ score : ℚ, (calculateLoanEligibility u score).tenure_options = [12, 18, 24, 36]) ∧
    ((∀ t ∈ ([12, 18, 24, 36] : List ℕ), emiFits u (creditScoreValue u) t = false) →
      (calculateCreditScore u).recommended_emi = 0) ∧
    (∀ t ∈ ([12, 18, 24, 36] : List ℕ), emiFits u (creditScoreValue u) t = true →
      ∃ t0 ∈ ([12, 18, 24, 36] : List ℕ), emiFits u (creditScoreValue u) t0 = true ∧ t0 ≤ t ∧
        (calculateCreditScore u).recommended_emi =
          emiForTenure (calculateLoanEligibility u (creditScoreValue u)).recommended_amount
            (getInterestRate (creditScoreValue u)) t0) := by
  refine ⟨calculateCreditScore_optimal_tenure u, fun _ => rfl, ?_, ?_⟩
  · intro hall
    have h12 := hall 12 (by simp)
    have h18 := hall 18 (by simp)
    have h24 := hall 24 (by simp)
    have h36 := hall 36 (by simp)
    rw [emiFits_eq] at h12 h18 h24 h36
    rw [calculateCreditScore_recommended_emi, calculateLoanEligibility_emi_options]
    simp only [List.map_cons, List.map_nil, List.filter_cons, List.filter_nil,
      h12, h18, h24, h36]
    simp [jsOrQ]
  · intro t ht hfit
    cases hb12 : emiFits u (creditScoreValue u) 12 with
    | true =>
      refine ⟨12, by simp, hb12, ?_, ?_⟩
      · fin_cases ht <;> norm_num
      · rw [calculateCreditScore_recommended_emi, calculateLoanEligibility_emi_options]
        rw [emiFits_eq] at hb12
        simp only [List.map_cons, List.map_nil, List.filter_cons, List.filter_nil, hb12]
        simp [jsOrQ_some_zero_default, emiOptionFor_emi]
    | false =>
      cases hb18 : emiFits u (creditScoreValue u) 18 with
      | true =>
        refine ⟨18, by simp, hb18, ?_, ?_⟩
        · fin_cases ht
          · rw [hb12] at hfit; cases hfit
          · norm_num
          · norm_num
          · norm_num
        · rw [calculateCreditScore_recommended_emi, calculateLoanEligibility_emi_options]
          rw [emiFits_eq] at hb12 hb18
          simp only [List.map_cons, List.map_nil, List.filter_cons, List.filter_nil,
            hb12, hb18]
          simp [jsOrQ_some_zero_default, emiOptionFor_emi]
      | false =>
        cases hb24 : emiFits u (creditScoreValue u) 24 with
        | true =>
          refine ⟨24, by simp, hb24, ?_, ?_⟩
          · fin_cases ht
            · rw [hb12] at hfit; cases hfit
            · rw [hb18] at hfit; cases hfit
            · norm_num
            · norm_num
          · rw [calculateCreditScore_recommended_emi, calculateLoanEligibility_emi_options]
            rw [emiFits_eq] at hb12 hb18 hb24
            simp only [List.map_cons, List.map_nil, List.filter_cons, List.filter_nil,
              hb12, hb18, hb24]
            simp [jsOrQ_some_zero_default, emiOptionFor_emi]
        | false =>
          have h36 : emiFits u (creditScoreValue u) 36 = true := by
            fin_cases ht
            · rw [hb12] at hfit; cases hfit
            · rw [hb18] at hfit; cases hfit
            · rw [hb24] at hfit; cases hfit
            · exact hfit
          refine ⟨36, by simp, h36, ?_, ?_⟩
          · fin_cases ht
            · rw [hb12] at hfit; cases hfit
            · rw [hb18] at hfit; cases hfit
            · rw [hb24] at hfit; cases hfit
            · exact le_refl 36
          · rw [calculateCreditScore_recommended_emi, calculateLoanEligibility_emi_options]
            rw [emiFits_eq] at hb12 hb18 hb24 h36
            simp only [List.map_cons, List.map_nil, List.filter_cons, List.filter_nil,
              hb12, hb18, hb24, h36]
            simp [jsOrQ_some_zero_default, emiOptionFor_emi]

end RealisticCreditEngine

/-- Witness for C9 at a concrete borrower with no EMI capacity: the
recommended EMI degrades to 0. -/
theorem optimal_tenure_and_recommended_emi_witness :
    (RealisticCreditEngine.calculateCreditScore overloadedUser).optimal_tenure_months = 12 ∧
    (RealisticCreditEngine.calculateCreditScore overloadedUser).recommended_emi = 0 := by
  obtain ⟨h1, -, h3, -⟩ := RealisticCreditEngine.optimal_tenure_and_recommended_emi overloadedUser
  refine ⟨h1, h3 ?_⟩
  intro t ht
  rw [RealisticCreditEngine.emiFits_eq, decide_eq_false_iff_not,
    RealisticCreditEngine.emiOptionFor_emi]
  have hA : 0 ≤ (RealisticCreditEngine.calculateLoanEligibility overloadedUser
      (RealisticCreditEngine.creditScoreValue overloadedUser)).recommended_amount :=
    RealisticCreditEngine.recommended_amount_nonneg _ _ (by norm_num [overloadedUser, zeroUser])
  have ht0 : t ≠ 0 := by fin_cases ht <;> norm_num
  have h := RealisticCreditEngine.emiForTenure_nonneg
    (RealisticCreditEngine.calculateLoanEligibility overloadedUser
      (RealisticCreditEngine.creditScoreValue overloadedUser)).recommended_amount
    (RealisticCreditEngine.getInterestRate (RealisticCreditEngine.creditScoreValue overloadedUser))
    t hA
    (RealisticCreditEngine.getInterestRate_pos (RealisticCreditEngine.creditScoreValue overloadedUser))
    ht0
  have hcap : overloadedUser.monthly_income * 0.4 - overloadedUser.existing_loan_emi < 0 := by
    norm_num [overloadedUser, zeroUser]
  intro hc
  linarith

namespace RBIComplianceEngine

lemma checkCompliance_isCompliant (p : RBIBorrowerProfile) (amt rate : ℚ) (t : ℕ) :
    (checkCompliance p amt rate t).isCompliant =
      (checkCompliance p amt rate t).violations.isEmpty := rfl

/-- C8: for every positive principal and positive annual rate, the amortizing
EMI of `calculateEMI` is strictly decreasing in the tenure. -/
theorem calculateEMI_strict_anti (p r : ℚ) (n1 n2 : ℕ)
    (hp : 0 < p) (hr : 0 < r) (h1 : 0 < n1) (h12 : n1 < n2) :
    calculateEMI p r n2 < calculateEMI p r n1 := by
  show p * (r / (12 * 100)) * (1 + r / (12 * 100)) ^ n2 /
      ((1 + r / (12 * 100)) ^ n2 - 1) <
    p * (r / (12 * 100)) * (1 + r / (12 * 100)) ^ n1 /
      ((1 + r / (12 * 100)) ^ n1 - 1)
  set m := r / (12 * 100) with hm
  have hm0 : 0 < m := by positivity
  have hx : (1:ℚ) < 1 + m := by linarith
  have hp1 : (1:ℚ) < (1 + m) ^ n1 := one_lt_pow₀ hx h1.ne'
  have hpow : (1 + m) ^ n1 < (1 + m) ^ n2 := pow_lt_pow_right₀ hx h12
  have hp2 : (1:ℚ) < (1 + m) ^ n2 := lt_trans hp1 hpow
  have hd1 : (0:ℚ) < (1 + m) ^ n1 - 1 := by linarith
  have hd2 : (0:ℚ) < (1 + m) ^ n2 - 1 := by linarith
  have key : ∀ x : ℚ, 1 < x → x / (x - 1) = 1 + 1 / (x - 1) := by
    intro x hx1
    have hne : x - 1 ≠ 0 := by linarith
    field_simp
  have hlt : (1 + m) ^ n2 / ((1 + m) ^ n2 - 1) <
      (1 + m) ^ n1 / ((1 + m) ^ n1 - 1) := by
    rw [key _ hp1, key _ hp2]
    have := one_div_lt_one_div_of_lt hd1
      (by linarith : (1 + m) ^ n1 - 1 < (1 + m) ^ n2 - 1)
    linarith
  calc p * m * (1 + m) ^ n2 / ((1 + m) ^ n2 - 1)
      = (p * m) * ((1 + m) ^ n2 / ((1 + m) ^ n2 - 1)) := by ring
    _ < (p * m) * ((1 + m) ^ n1 / ((1 + m) ^ n1 - 1)) := by
        have hpm : (0:ℚ) < p * m := by positivity
        exact mul_lt_mul_of_pos_left hlt hpm
    _ = p * m * (1 + m) ^ n1 / ((1 + m) ^ n1 - 1) := by ring

/-- Witness for C8: a Rs. 100000 loan at 24% p.a. has a smaller EMI over 24
months than over 12 months. -/
theorem calculateEMI_strict_anti_witness :
    calculateEMI 100000 24 24 < calculateEMI 100000 24 12 :=
  calculateEMI_strict_anti 100000 24 12 24 (by norm_num) (by norm_num)
    (by norm_num) (by norm_num)

/-- C2: a requested amount above 125000 always produces the Rs. 125,000
ceiling violation and `isCompliant = false`, whatever the other inputs; and
`isCompliant` is true exactly when the violations list is empty. -/
theorem loan_ceiling_violation_and_compliance_iff (p : RBIBorrowerProfile)
    (amt rate : ℚ) (tenure : ℕ) :
    (amt > 125000 →
      (checkCompliance p amt rate tenure).isCompliant = false ∧
      "Loan amount exceeds RBI limit of Rs. 125000" ∈
        (checkCompliance p amt rate tenure).violations) ∧
    ((checkCompliance p amt rate tenure).isCompliant = true ↔
      (checkCompliance p amt rate tenure).violations = []) := by
  constructor
  · intro hamt
    have h1 : amt > LOAN_LIMITS.maxLoanAmount := hamt
    constructor
    · rw [checkCompliance_isCompliant]
      simp only [checkCompliance]
      rw [if_pos h1]
      simp
    · simp only [checkCompliance]
      rw [if_pos h1]
      simp
      exact Or.inl (by rfl)
  · rw [checkCompliance_isCompliant]
    exact List.isEmpty_iff

end RBIComplianceEngine

/-- Witness for C2: requested amount 130000 on a concrete borrower profile. -/
theorem loan_ceiling_violation_and_compliance_iff_witness :
    (RBIComplianceEngine.checkCompliance sampleRBI 130000 24 24).isCompliant = false ∧
    "Loan amount exceeds RBI limit of Rs. 125000" ∈
      (RBIComplianceEngine.checkCompliance sampleRBI 130000 24 24).violations :=
  (RBIComplianceEngine.loan_ceiling_violation_and_compliance_iff sampleRBI 130000 24 24).1
    (by norm_num)

namespace FileUpload

/-- One symbolic row under the canonical header: the row parser succeeds and
each numeric field is the parse of its own cell (with a first `%` removed for
the percentage fields), defaulted through the `|| d` idiom. -/
lemma parseRow_ok_fields
    (c1 c2 c3 c4 c5 c6 c7 c8 c9 c10 c11 c12 c13 c14 c15 c16 c17 c18 c19 c20 c21 : String) :
    ∃ u : CsvUserData,
      parseRow csvHeader [c1, c2, c3, c4, c5, c6, c7, c8, c9, c10, c11, c12, c13, c14,
        c15, c16, c17, c18, c19, c20, c21] = Except.ok u ∧
      u.monthly_income = jsOrQ (jsParseFloat c2) 25000 ∧
      u.emergency_savings = jsOrQ (jsParseFloat c5) 0 ∧
      u.electricity_bill_on_time = jsOrQ (jsParseFloat (removeFirstPercent c6)) 80 ∧
      u.dth_recharge_on_time = jsOrQ (jsParseFloat (removeFirstPercent c7)) 75 ∧
      u.internet_bill_on_time = jsOrQ (jsParseFloat (removeFirstPercent c8)) 85 ∧
      u.rent_payment_on_time = jsOrQ (jsParseFloat (removeFirstPercent c9)) 90 ∧
      u.existing_loan_emi = jsOrQ (jsParseFloat c10) 0 ∧
      u.previous_loan_defaults = jsOrZ (jsParseInt c11) 0 ∧
      u.upi_transactions_per_month = jsOrZ (jsParseInt c12) 15 ∧
      u.savings_rate = jsOrQ (jsParseFloat (removeFirstPercent c16)) 15 ∧
      u.city_tier = jsOrZ (jsParseInt c20) 2 ∧
      u.credit_card_outstanding = jsOrQ (jsParseFloat c21) 0 :=
  ⟨_, rfl, rfl, rfl, rfl, rfl, rfl, rfl, rfl, rfl, rfl, rfl, rfl, rfl⟩

lemma jsParseFloat_zero : jsParseFloat ("0") = some 0 := by
  simp [jsParseFloat, digitsSplit, digitsToNat]

lemma jsParseInt_zero : jsParseInt ("0") = some 0 := by
  simp [jsParseInt, digitsSplit, digitsToNat]

lemma removeFirstPercent_zero : removeFirstPercent ("0") = ("0") := rfl

/-- C7 counterexample: under a header containing every required column, a data
row shorter than the header (here a single `user_id` cell) makes the row
parser throw — `.replace` is called on the `undefined`
`electricity_bill_on_time` cell — so `parseCSV`, which maps this row parser
over the data lines, is not total on rows with missing field values. -/
theorem parseRow_throws_on_short_row :
    parseRow csvHeader [("U001")] = Except.error ("TypeError") := rfl

/-- C7 (amended): on a row that supplies a cell (possibly empty or
unparseable) for every column, the row parser never throws; each claimed
numeric field is the parse of its cell — with a first `%` removed for the
percentage fields — and resolves to its documented default (income 25000,
electricity/dth/internet/rent punctuality 80/75/85/90, savings rate 15, UPI
transactions 15, city tier 2) whenever the cell is missing from no column but
fails to parse. -/
theorem parseRow_total_and_defaults
    (c1 c2 c3 c4 c5 c6 c7 c8 c9 c10 c11 c12 c13 c14 c15 c16 c17 c18 c19 c20 c21 : String) :
    ∃ u : CsvUserData,
      parseRow csvHeader [c1, c2, c3, c4, c5, c6, c7, c8, c9, c10, c11, c12, c13, c14,
        c15, c16, c17, c18, c19, c20, c21] = Except.ok u ∧
      (jsParseFloat c2 = none → u.monthly_income = 25000) ∧
      (jsParseFloat (removeFirstPercent c6) = none → u.electricity_bill_on_time = 80) ∧
      (jsParseFloat (removeFirstPercent c7) = none → u.dth_recharge_on_time = 75) ∧
      (jsParseFloat (removeFirstPercent c8) = none → u.internet_bill_on_time = 85) ∧
      (jsParseFloat (removeFirstPercent c9) = none → u.rent_payment_on_time = 90) ∧
      (jsParseFloat (removeFirstPercent c16) = none → u.savings_rate = 15) ∧
      (jsParseInt c12 = none → u.upi_transactions_per_month = 15) ∧
      (jsParseInt c20 = none → u.city_tier = 2) := by
  obtain ⟨u, hok, h2, -, h6, h7, h8, h9, -, -, h12, h16, h20, -⟩ :=
    parseRow_ok_fields c1 c2 c3 c4 c5 c6 c7 c8 c9 c10 c11 c12 c13 c14 c15 c16
      c17 c18 c19 c20 c21
  refine ⟨u, hok, ?_, ?_, ?_, ?_, ?_, ?_, ?_, ?_⟩ <;> intro hnone
  · rw [h2, hnone]; rfl
  · rw [h6, hnone]; rfl
  · rw [h7, hnone]; rfl
  · rw [h8, hnone]; rfl
  · rw [h9, hnone]; rfl
  · rw [h16, hnone]; rfl
  · rw [h12, hnone]; rfl
  · rw [h20, hnone]; rfl

/-- Witness for the amended C7: a row of empty cells parses and yields the
documented defaults. -/
theorem parseRow_total_and_defaults_witness :
    ∃ u : CsvUserData,
      parseRow csvHeader [(""), (""), (""), (""), (""), (""), (""), (""), (""),
        (""), (""), (""), (""), (""), (""), (""), (""), (""), (""), (""), ("")] =
        Except.ok u ∧
      u.monthly_income = 25000 ∧ u.electricity_bill_on_time = 80 ∧
      u.dth_recharge_on_time = 75 ∧ u.internet_bill_on_time = 85 ∧
      u.rent_payment_on_time = 90 ∧ u.savings_rate = 15 ∧
      u.upi_transactions_per_month = 15 ∧ u.city_tier = 2 := by
  obtain ⟨u, hok, h2, h6, h7, h8, h9, h16, h12, h20⟩ :=
    parseRow_total_and_defaults ("") ("") ("") ("") ("") ("") ("") ("") ("")
      ("") ("") ("") ("") ("") ("") ("") ("") ("") ("") ("") ("")
  have hf : jsParseFloat ("") = none := rfl
  have hi : jsParseInt ("") = none := rfl
  have hp : removeFirstPercent ("") = ("") := rfl
  rw [hp] at h6 h7 h8 h9 h16
  exact ⟨u, hok, h2 hf, h6 hf, h7 hf, h8 hf, h9 hf, h16 hf, h12 hi, h20 hi⟩

/-- C10: a cell that parses to exactly 0 is falsy in the `parseFloat(v) || d`
idiom, so the field gets its default exactly as if the cell were missing;
the parsed 0 is preserved only where the default is itself 0
(emergency savings, existing EMI, card outstanding, previous defaults). -/
theorem zero_cell_defaults
    (c1 c2 c3 c4 c5 c6 c7 c8 c9 c10 c11 c12 c13 c14 c15 c16 c17 c18 c19 c20 c21 : String)
    (h2 : c2 = "0") (h5 : c5 = "0") (h10 : c10 = "0") (h11 : c11 = "0")
    (h12 : c12 = "0") (h16 : c16 = "0") (h21 : c21 = "0") :
    ∃ u : CsvUserData,
      parseRow csvHeader [c1, c2, c3, c4, c5, c6, c7, c8, c9, c10, c11, c12, c13, c14,
        c15, c16, c17, c18, c19, c20, c21] = Except.ok u ∧
      u.monthly_income = 25000 ∧
      u.savings_rate = 15 ∧
      u.upi_transactions_per_month = 15 ∧
      u.emergency_savings = 0 ∧
      u.existing_loan_emi = 0 ∧
      u.credit_card_outstanding = 0 ∧
      u.previous_loan_defaults = 0 := by
  subst h2 h5 h10 h11 h12 h16 h21
  obtain ⟨u, hok, e2, e5, -, -, -, -, e10, e11, e12, e16, -, e21⟩ :=
    parseRow_ok_fields c1 ("0") c3 c4 ("0") c6 c7 c8 c9 ("0") ("0") ("0") c13
      c14 c15 ("0") c17 c18 c19 c20 ("0")
  rw [removeFirstPercent_zero] at e16
  rw [jsParseFloat_zero] at e2 e5 e10 e16 e21
  rw [jsParseInt_zero] at e11 e12
  simp only [jsOrQ, jsOrZ, if_pos rfl] at e2 e5 e10 e11 e12 e16 e21
  exact ⟨u, hok, e2, e16, e12, e5, e10, e21, e11⟩

/-- Witness for C10 at a fully concrete row whose zero-valued cells exercise
both behaviours. -/
theorem zero_cell_defaults_witness :
    ∃ u : CsvUserData,
      parseRow csvHeader [("U1"), ("0"), ("salary"), ("6"), ("0"), ("80"), ("75"),
        ("85"), ("90"), ("0"), ("0"), ("0"), ("20"), ("70"), ("18000"), ("0"),
        ("30"), ("salaried"), ("2"), ("2"), ("0")] = Except.ok u ∧
      u.monthly_income = 25000 ∧
      u.savings_rate = 15 ∧
      u.upi_transactions_per_month = 15 ∧
      u.emergency_savings = 0 ∧
      u.existing_loan_emi = 0 ∧
      u.credit_card_outstanding = 0 ∧
      u.previous_loan_defaults = 0 :=
  zero_cell_defaults ("U1") ("0") ("salary") ("6") ("0") ("80") ("75") ("85")
    ("90") ("0") ("0") ("0") ("20") ("70") ("18000") ("0") ("30") ("salaried")
    ("2") ("2") ("0") rfl rfl rfl rfl rfl rfl rfl

end FileUpload
